import Mathlib

/-! Skee Ball scoring firmware (`Skee_Ball_3_1.c`).

A shallow embedding of the 8051 control program: the global variables and the
port latches form a `State`, every C function is a state transformer, and the
bytes read from the sensor port and the level read from the mode pin are
explicit arguments.  `int` and `unsigned int` are the 16-bit types of the
target compiler; arithmetic wraps explicitly.
-/

namespace SkeeBall

/-! ## Machine integers -/

/-- Reduction of an integer to the 16-bit `unsigned int` range. -/
def toU16 (x : Int) : Nat := (x % 65536).toNat

/-- Reduction of an integer to the 16-bit two's complement `int` range. -/
def toS16 (x : Int) : Int := (x + 32768) % 65536 - 32768

/-- Value of `a += b` for `int a` and `unsigned int b`: the sum is formed in
`unsigned int` and converted back to `int`. -/
def addIntUnsigned (a : Int) (b : Nat) : Int :=
  toS16 (((toU16 a + b) % 65536 : Nat) : Int)

/-- Replace bit `i` of the latch byte `v` by `b`. -/
def setBit (v i : Nat) (b : Bool) : Nat :=
  if b then v ||| (1 <<< i) else v &&& (255 - (1 <<< i))

/-- Read bit `i` of the latch byte `v`. -/
def getBit (v i : Nat) : Bool := (v >>> i) % 2 == 1

/-! ## Observable events -/

/-- The four ports of the controller. -/
inductive Port
  | P0 | P1 | P2 | P3
  deriving DecidableEq

/-- What the program does to the outside world: latch writes and busy waits. -/
inductive Event
  | write (p : Port) (v : Nat)
  | delay (ms : Nat)
  deriving DecidableEq

/-! ## Program state -/

/-- The global and function-static variables together with the port latches and
the history of port writes and delays. -/
structure State where
  valid : Nat
  score : Int
  ball_count : Nat
  restart : Nat
  Player1_Score : Int
  Player2_Score : Int
  turn : Nat
  P0 : Nat
  P1 : Nat
  P2 : Nat
  P3 : Nat
  log : List Event
  deriving DecidableEq

/-- Every variable holds a value of its C type. -/
def State.WF (s : State) : Prop :=
  s.valid < 65536 ∧ s.ball_count < 65536 ∧ s.restart < 65536 ∧ s.turn < 65536 ∧
  (-32768 ≤ s.score ∧ s.score ≤ 32767) ∧
  (-32768 ≤ s.Player1_Score ∧ s.Player1_Score ≤ 32767) ∧
  (-32768 ≤ s.Player2_Score ∧ s.Player2_Score ≤ 32767) ∧
  s.P0 < 256 ∧ s.P1 < 256 ∧ s.P2 < 256 ∧ s.P3 < 256

instance (s : State) : Decidable s.WF := by
  unfold State.WF; exact inferInstance

/-- Whole-port assignment `Pn = v`: the latch keeps the low byte. -/
def writePort (p : Port) (v : Nat) (s : State) : State :=
  let b := v % 256
  match p with
  | .P0 => { s with P0 := b, log := s.log ++ [Event.write .P0 b] }
  | .P1 => { s with P1 := b, log := s.log ++ [Event.write .P1 b] }
  | .P2 => { s with P2 := b, log := s.log ++ [Event.write .P2 b] }
  | .P3 => { s with P3 := b, log := s.log ++ [Event.write .P3 b] }

/-- Latch byte of a port. -/
def readLatch (p : Port) (s : State) : Nat :=
  match p with
  | .P0 => s.P0
  | .P1 => s.P1
  | .P2 => s.P2
  | .P3 => s.P3

/-- Assignment to an `sbit`: one bit of the latch changes. -/
def writePin (p : Port) (i : Nat) (b : Bool) (s : State) : State :=
  writePort p (setBit (readLatch p s) i b) s

/-- Function `MSDelay(itime)`: two bounded counting loops, no effect on the variables. -/
def MSDelay (itime : Nat) (s : State) : State :=
  { s with log := s.log ++ [Event.delay itime] }

/-! ## The functions of the program -/

/-- Function `Segment_LUT`: digit to seven-segment pattern. -/
def Segment_LUT (display : Nat) : Nat :=
  match display with
  | 1 => 0x79
  | 2 => 0x24
  | 3 => 0x30
  | 4 => 0x19
  | 5 => 0x12
  | 6 => 0x02
  | 7 => 0x78
  | 8 => 0x00
  | 9 => 0x18
  | _ => 0x40

/-- Function `player_scoring(low, hi)`: show two digits. -/
def player_scoring (low hi : Nat) (s : State) : State :=
  writePort .P1 (Segment_LUT low) (writePort .P0 (Segment_LUT hi) s)

/-- Function `stop_game()`: the game-over flash and flags. -/
def stop_game (s : State) : State :=
  let s := { s with score := 0 }
  let s := writePort .P0 0x7F s
  let s := writePort .P1 0x7F s
  let s := MSDelay 1500 s
  let s := writePort .P0 0x40 s
  let s := writePort .P1 0x40 s
  let s := MSDelay 1500 s
  let s := writePort .P0 0x7F s
  let s := writePort .P1 0x7F s
  let s := MSDelay 1500 s
  let s := writePort .P1 0x40 s
  let s := writePort .P0 0x40 s
  { s with valid := 1, ball_count := 0, restart := 1 }

/-- Function `player_turn(points)`: turn and total bookkeeping. -/
def player_turn (points : Nat) (s : State) : State :=
  let s := writePort .P0 0x7F s
  let s := writePort .P1 0x7F s
  let (tmp, s) :=
    if s.restart = 1 then
      (0, { s with turn := 1, restart := 0, Player1_Score := 0, Player2_Score := 0 })
    else
      (s.turn % 2, { s with turn := (s.turn + 1) % 65536 })
  if tmp = 0 then
    let s := { s with Player1_Score := 0 }
    let s := { s with Player1_Score := addIntUnsigned s.Player1_Score points }
    if s.Player1_Score > 990 then
      let s := stop_game s
      { s with Player1_Score := 0, Player2_Score := 0 }
    else
      let s := { s with score := s.Player2_Score }
      let s := writePort .P0 0x0C s
      let s := writePort .P3 0x4C s
      MSDelay 2000 s
  else
    let s := { s with Player2_Score := 0 }
    let s := { s with Player2_Score := addIntUnsigned s.Player2_Score points }
    if s.Player2_Score > 990 then
      let s := stop_game s
      { s with Player1_Score := 0, Player2_Score := 0 }
    else
      let s := { s with score := s.Player1_Score }
      let s := writePort .P0 0x0C s
      let s := writePort .P3 0xF7 s
      MSDelay 2000 s

/-- Function `stop_scoring()`, the external-interrupt handler.  `gameModeB` is the level
read from the pin `Game_Mode_B`; the final clearing of the interrupt flag `IE0`
touches nothing in the state. -/
def stop_scoring (gameModeB : Nat) (s : State) : State :=
  let s := if gameModeB = 0 then player_turn (toU16 s.score) s else s
  let s := { s with ball_count := 9 }
  let s := { s with valid := 0 }
  let s := writePort .P3 0x84 s
  MSDelay 5000 s

/-- Lines 97 to 142 of `main`: read `P2` (the byte `p2`), mask it and run the
`switch`. -/
def pollSwitch (p2 : Nat) (s : State) : State :=
  let sensor := p2 &&& 0x3F
  match sensor with
  | 0x01 => { s with score := toS16 (s.score + 10) }
  | 0x02 => { s with score := toS16 (s.score + 20) }
  | 0x04 => { s with score := toS16 (s.score + 30) }
  | 0x08 => { s with score := toS16 (s.score + 40) }
  | 0x10 => { s with score := toS16 (s.score + 50) }
  | 0x20 => { s with score := toS16 (s.score + 100) }
  | 0x80 =>
    let s := MSDelay 2000 s
    let s := { s with score := 0 }
    { s with score := toS16 (s.score + 0) }
  | _ => { s with score := toS16 (s.score + 0) }

/-- Lines 144 to 168 of `main`: choose the digits and show them, or end the
game. -/
def pollDisplay (s : State) : State :=
  if s.score = 0 then
    player_scoring 0 0 s
  else if s.score ≤ 99 then
    let hi_tmp := 0
    let lo_tmp := toU16 (Int.tdiv s.score 10)
    player_scoring lo_tmp hi_tmp s
  else if s.score ≤ 990 then
    let hi_tmp := toU16 (Int.tdiv s.score 100)
    let lo_tmp := toU16 (Int.tmod (Int.tdiv s.score 10) 10)
    player_scoring lo_tmp hi_tmp s
  else if s.score > 990 then
    stop_game s
  else
    { s with score := 0, valid := 1 }

/-- Lines 170 to 178 of `main`: the end-of-turn test. -/
def pollEndTurn (s : State) : State :=
  if s.ball_count = 0 then
    { s with valid := 1 }
  else
    MSDelay 2000 { s with ball_count := (s.ball_count + 65535) % 65536 }

/-- One execution of the body of the inner `while` loop of `main`. -/
def pollPass (p2 : Nat) (s : State) : State :=
  pollEndTurn (pollDisplay (pollSwitch p2 s))

/-- The condition of the inner `while` loop. -/
def pollCond (s : State) : Bool := s.valid == 0 && s.ball_count != 0

/-- Function `Setup_Sys()`: the new state and the returned value.  The
interrupt-control bits `IT0`, `EX0`, `EA` are not part of the state. -/
def Setup_Sys (s : State) : State × Int :=
  let s := writePin .P2 0 true s
  let s := writePin .P2 1 true s
  let s := writePin .P2 2 true s
  let s := writePin .P2 3 true s
  let s := writePin .P2 4 true s
  let s := writePin .P2 5 true s
  let s := writePin .P3 2 true s
  let s := writePin .P2 6 false s
  let s := writePin .P2 7 false s
  let s := writePin .P0 7 true s
  let s := writePin .P1 7 true s
  let s := writePin .P0 0 false s
  let s := writePin .P0 1 false s
  let s := writePin .P0 2 false s
  let s := writePin .P0 3 false s
  let s := writePin .P0 4 false s
  let s := writePin .P0 5 false s
  let s := writePin .P0 6 false s
  let s := writePin .P1 0 false s
  let s := writePin .P1 1 false s
  let s := writePin .P1 2 false s
  let s := writePin .P1 3 false s
  let s := writePin .P1 4 false s
  let s := writePin .P1 5 false s
  let s := writePin .P1 6 false s
  let s := writePin .P3 0 false s
  let s := writePin .P3 1 false s
  let s := writePin .P3 3 false s
  let s := writePin .P3 4 false s
  let s := writePin .P3 5 false s
  let s := writePin .P3 6 false s
  let s := writePin .P3 7 false s
  let s := writePort .P3 0x84 s
  (s, 0)

/-- The variables as the C initialisers leave them, the port latches at the
controller's reset value `0xFF` (the latch bytes after `Setup_Sys` do not depend
on it: every bit is written). -/
def resetState : State :=
  { valid := 1, score := 0, ball_count := 9, restart := 0,
    Player1_Score := 0, Player2_Score := 0, turn := 0,
    P0 := 0xFF, P1 := 0xFF, P2 := 0xFF, P3 := 0xFF, log := [] }

/-- Lines 85 to 90 of `main`: everything before the scoring loop.  The two mode
pins receive the level of `Unused_Control_Pin_1`, read back from its latch. -/
def mainInit (s : State) : State :=
  let (s, ret) := Setup_Sys s
  let s := { s with valid := toU16 ret }
  let s := writePin .P2 6 false s
  let s := writePin .P2 7 true s
  let s := writePin .P0 7 (getBit s.P2 6) s
  writePin .P1 7 (getBit s.P2 6) s

/-- The state in which the scoring loop is entered after power-on. -/
def powerOn : State := mainInit resetState

/-- States the program reaches from power-on when each pass of the inner loop
runs to completion and the interrupt handler runs between passes, with any
sensor byte and any level on the mode pin. -/
inductive Reachable : State → Prop
  | init : Reachable powerOn
  | poll (s : State) (p2 : Nat) :
      Reachable s → pollCond s = true → Reachable (pollPass p2 s)
  | release (s : State) (gameModeB : Nat) :
      Reachable s → Reachable (stop_scoring gameModeB s)

/-- The inner `while` loop of `main` fed with the successive bytes read from
`P2`: a pass runs while the loop condition holds, and the loop is left as soon
as it fails. -/
def pollLoop : List Nat → State → State
  | [], s => s
  | p2 :: rest, s => if pollCond s then pollLoop rest (pollPass p2 s) else s

/-- The state at power-on with a ball-in-play score of `n`. -/
def withScore (n : Int) : State := { powerOn with score := n }

/-- The point table as the specification words it, on the masked reading. -/
def specPoints (masked : Nat) : Int :=
  if masked = 0x01 then 10
  else if masked = 0x02 then 20
  else if masked = 0x04 then 30
  else if masked = 0x08 then 40
  else if masked = 0x10 then 50
  else if masked = 0x20 then 100
  else 0

/-- Inductive strengthening of the score bounds: the player totals are
multiples of ten as well, because a total is loaded back into `score`. -/
def ScoreInv (s : State) : Prop :=
  s.score % 10 = 0 ∧ 0 ≤ s.score ∧ s.score ≤ 990 ∧ s.ball_count ≤ 9 ∧
  (s.Player1_Score % 10 = 0 ∧ 0 ≤ s.Player1_Score ∧ s.Player1_Score ≤ 990) ∧
  (s.Player2_Score % 10 = 0 ∧ 0 ≤ s.Player2_Score ∧ s.Player2_Score ≤ 990)

/-- Points scored by a run of passes with the given `P2` bytes, by the
specification's table. -/
def sumPoints (rs : List Nat) : Int :=
  (rs.map (fun r => specPoints (r &&& 0x3F))).sum

/-- Segments (A = 0 .. G = 6) lit in the seven-segment glyph of a digit, the
nine drawn without its bottom bar and the six with its top bar. -/
def standardGlyph (d : Nat) : List Nat :=
  match d with
  | 0 => [0, 1, 2, 3, 4, 5]
  | 1 => [1, 2]
  | 2 => [0, 1, 3, 4, 6]
  | 3 => [0, 1, 2, 3, 6]
  | 4 => [1, 2, 5, 6]
  | 5 => [0, 2, 3, 5, 6]
  | 6 => [0, 2, 3, 4, 5, 6]
  | 7 => [0, 1, 2]
  | 8 => [0, 1, 2, 3, 4, 5, 6]
  | 9 => [0, 1, 2, 5, 6]
  | _ => []

/-- Active-low pattern of a set of lit segments: bit `i` is 0 exactly when
segment `i` is lit, for the seven segments A .. G. -/
def activeLow (lit : List Nat) : Nat :=
  (((List.range 7).filter (fun i => !lit.contains i)).map (fun i => 2 ^ i)).sum

/-- Two balls played from power-on, worth 20 and 100 points. -/
def afterTwoBalls : State := pollPass 0x20 (pollPass 0x02 powerOn)

/-- Player 1 starts a second turn with 900 points: nine 100-point balls, a
release, and a release ending an empty turn of player 2. -/
def secondTurnState : State :=
  stop_scoring 0 (stop_scoring 0
    (pollLoop [0x20, 0x20, 0x20, 0x20, 0x20, 0x20, 0x20, 0x20, 0x20] powerOn))

/-- A match whose turn counter holds its largest value, with 30 points in play. -/
def lastTurnState : State := { powerOn with turn := 65535, score := 30, Player1_Score := 200 }

/-- A match over, waiting for the release that restarts it. -/
def restartState : State :=
  { powerOn with restart := 1, turn := 7, Player1_Score := 400, Player2_Score := 250, score := 50 }

/-! ## Arithmetic helpers -/

theorem toS16_of_range (x : Int) (h1 : -32768 ≤ x) (h2 : x ≤ 32767) : toS16 x = x := by
  unfold toS16; omega

theorem toU16_of_nonneg (x : Int) (h1 : 0 ≤ x) (h2 : x ≤ 65535) : ((toU16 x : Nat) : Int) = x := by
  unfold toU16; omega

theorem addIntUnsigned_zero_toU16 (x : Int) (h1 : -32768 ≤ x) (h2 : x ≤ 32767) :
    addIntUnsigned 0 (toU16 x) = x := by
  unfold addIntUnsigned toS16 toU16; omega

/-! ## The sensor switch -/

theorem masked_le (p2 : Nat) : p2 &&& 0x3F ≤ 0x3F := Nat.and_le_right

theorem pollSwitch_eq (p2 : Nat) (s : State) :
    pollSwitch p2 s = { s with score := toS16 (s.score + specPoints (p2 &&& 0x3F)) } := by
  have h := masked_le p2
  unfold pollSwitch
  generalize p2 &&& 0x3F = m at h
  simp only []
  split <;> simp_all [specPoints]

theorem pollSwitch_in_range (p2 : Nat) (s : State)
    (h1 : -32768 ≤ s.score) (h2 : s.score + specPoints (p2 &&& 0x3F) ≤ 32767) :
    pollSwitch p2 s = { s with score := s.score + specPoints (p2 &&& 0x3F) } := by
  rw [pollSwitch_eq, toS16_of_range]
  · have : 0 ≤ specPoints (p2 &&& 0x3F) := by unfold specPoints; split_ifs <;> omega
    omega
  · exact h2

/-- C1: the score after the sensor switch of a poll pass is the old score plus
the table value of the masked reading `p2 & 0x3F` (10, 20, 30, 40, 50, 100 for
the six single-line patterns, 0 for every other masked value); nothing else in
the state changes, and when the sum fits the 16-bit `int` no wrap occurs. -/
theorem C1_points_by_masked_reading (p2 : Nat) (s : State) :
    pollSwitch p2 s = { s with score := toS16 (s.score + specPoints (p2 &&& 0x3F)) } ∧
    (-32768 ≤ s.score → s.score + 100 ≤ 32767 →
      (pollSwitch p2 s).score = s.score + specPoints (p2 &&& 0x3F)) := by
  refine ⟨pollSwitch_eq p2 s, fun h1 h2 => ?_⟩
  have : specPoints (p2 &&& 0x3F) ≤ 100 := by unfold specPoints; split_ifs <;> omega
  rw [pollSwitch_in_range p2 s h1 (by omega)]

/-- Witness for C1: the 100-point line read at power-on. -/
theorem C1_points_by_masked_reading_witness :
    (-32768 : Int) ≤ powerOn.score ∧ powerOn.score + 100 ≤ 32767 ∧
    (pollSwitch 0xE0 powerOn).score = powerOn.score + specPoints (0xE0 &&& 0x3F) ∧
    specPoints (0xE0 &&& 0x3F) = 100 :=
  ⟨by decide, by decide,
    (C1_points_by_masked_reading 0xE0 powerOn).2 (by decide) (by decide), by decide⟩

/-! ## The display step -/

theorem stop_game_eq (s : State) :
    stop_game s =
      { s with score := 0, valid := 1, ball_count := 0, restart := 1, P0 := 0x40, P1 := 0x40,
               log := s.log ++ [Event.write .P0 0x7F, Event.write .P1 0x7F, Event.delay 1500,
                 Event.write .P0 0x40, Event.write .P1 0x40, Event.delay 1500,
                 Event.write .P0 0x7F, Event.write .P1 0x7F, Event.delay 1500,
                 Event.write .P1 0x40, Event.write .P0 0x40] } := by
  simp [stop_game, writePort, MSDelay]

theorem Segment_LUT_lt (d : Nat) : Segment_LUT d < 256 := by
  unfold Segment_LUT; split <;> omega

theorem player_scoring_eq (low hi : Nat) (s : State) :
    player_scoring low hi s =
      { s with P0 := Segment_LUT hi, P1 := Segment_LUT low,
               log := s.log ++ [Event.write .P0 (Segment_LUT hi),
                 Event.write .P1 (Segment_LUT low)] } := by
  simp [player_scoring, writePort, Nat.mod_eq_of_lt (Segment_LUT_lt _)]

theorem pollDisplay_gt (s : State) (h : 990 < s.score) : pollDisplay s = stop_game s := by
  unfold pollDisplay
  rw [if_neg (by omega), if_neg (by omega), if_neg (by omega), if_pos (by omega)]

theorem pollDisplay_range (s : State) (h0 : 0 ≤ s.score) (h1 : s.score ≤ 990) :
    pollDisplay s =
      player_scoring (toU16 (s.score / 10 % 10)) (toU16 (s.score / 100)) s := by
  unfold pollDisplay
  by_cases hz : s.score = 0
  · simp [hz, toU16]
  · rw [if_neg hz]
    have hd10 : Int.tdiv s.score 10 = s.score / 10 :=
      Int.tdiv_eq_ediv h0 (by omega)
    by_cases h99 : s.score ≤ 99
    · rw [if_pos h99]
      have e1 : s.score / 10 % 10 = s.score / 10 := by omega
      have e2 : s.score / 100 = 0 := by omega
      simp only [hd10, e1, e2]
      rfl
    · rw [if_neg h99, if_pos h1]
      have hd100 : Int.tdiv s.score 100 = s.score / 100 :=
        Int.tdiv_eq_ediv h0 (by omega)
      have hm : Int.tmod (s.score / 10) 10 = s.score / 10 % 10 :=
        Int.tmod_eq_emod (by omega) (by omega)
      simp only [hd10, hd100, hm]

theorem specPoints_bounds (m : Nat) :
    0 ≤ specPoints m ∧ specPoints m ≤ 100 ∧ specPoints m % 10 = 0 := by
  unfold specPoints; split_ifs <;> omega

/-- Fields a poll pass leaves alone when the display branch is taken. -/
theorem pollDisplay_le (s : State) (h : s.score ≤ 990) :
    ∃ lo hi, pollDisplay s = player_scoring lo hi s := by
  unfold pollDisplay
  split_ifs
  all_goals exact ⟨_, _, rfl⟩

/-! ## The release handler -/

set_option maxRecDepth 8000 in
theorem player_turn_first (points : Nat) (s : State)
    (h : s.restart = 1 ∨ s.turn % 2 = 0) (hp : addIntUnsigned 0 points ≤ 990) :
    player_turn points s =
      { s with
        turn := if s.restart = 1 then 1 else (s.turn + 1) % 65536
        restart := if s.restart = 1 then 0 else s.restart
        Player1_Score := addIntUnsigned 0 points
        Player2_Score := if s.restart = 1 then 0 else s.Player2_Score
        score := if s.restart = 1 then 0 else s.Player2_Score
        P0 := 0x0C, P1 := 0x7F, P3 := 0x4C
        log := s.log ++ [Event.write .P0 0x7F, Event.write .P1 0x7F, Event.write .P0 0x0C,
          Event.write .P3 0x4C, Event.delay 2000] } := by
  have hp2 : ¬ addIntUnsigned 0 points > 990 := by omega
  by_cases hr : s.restart = 1
  · simp [player_turn, writePort, MSDelay, hr, hp2]
  · have ht : s.turn % 2 = 0 := h.resolve_left hr
    simp [player_turn, writePort, MSDelay, hr, ht, hp2]

set_option maxRecDepth 8000 in
theorem player_turn_second (points : Nat) (s : State)
    (hr : s.restart ≠ 1) (ht : s.turn % 2 = 1) (hp : addIntUnsigned 0 points ≤ 990) :
    player_turn points s =
      { s with
        turn := (s.turn + 1) % 65536
        Player2_Score := addIntUnsigned 0 points
        score := s.Player1_Score
        P0 := 0x0C, P1 := 0x7F, P3 := 0xF7
        log := s.log ++ [Event.write .P0 0x7F, Event.write .P1 0x7F, Event.write .P0 0x0C,
          Event.write .P3 0xF7, Event.delay 2000] } := by
  have hp2 : ¬ addIntUnsigned 0 points > 990 := by omega
  simp [player_turn, writePort, MSDelay, hr, ht, hp2]

set_option maxRecDepth 8000 in
theorem player_turn_over (points : Nat) (s : State) (hp : 990 < addIntUnsigned 0 points) :
    player_turn points s =
      { s with
        turn := if s.restart = 1 then 1 else (s.turn + 1) % 65536
        restart := 1, Player1_Score := 0, Player2_Score := 0
        score := 0, valid := 1, ball_count := 0
        P0 := 0x40, P1 := 0x40
        log := s.log ++ [Event.write .P0 0x7F, Event.write .P1 0x7F,
          Event.write .P0 0x7F, Event.write .P1 0x7F, Event.delay 1500,
          Event.write .P0 0x40, Event.write .P1 0x40, Event.delay 1500,
          Event.write .P0 0x7F, Event.write .P1 0x7F, Event.delay 1500,
          Event.write .P1 0x40, Event.write .P0 0x40] } := by
  by_cases hr : s.restart = 1
  · simp [player_turn, writePort, MSDelay, stop_game, hr, hp]
  · by_cases ht : s.turn % 2 = 0
    · simp [player_turn, writePort, MSDelay, stop_game, hr, ht, hp]
    · simp [player_turn, writePort, MSDelay, stop_game, hr, ht, hp]

/-! ## The score invariant -/

theorem pollPass_ScoreInv (p2 : Nat) (s : State) (h : ScoreInv s) :
    ScoreInv (pollPass p2 s) := by
  obtain ⟨h1, h2, h3, h4, h5, h6⟩ := h
  obtain ⟨b1, b2, b3⟩ := specPoints_bounds (p2 &&& 0x3F)
  have hsw := pollSwitch_in_range p2 s (by omega) (by omega)
  unfold pollPass
  by_cases hle : s.score + specPoints (p2 &&& 0x3F) ≤ 990
  · obtain ⟨lo, hi, e⟩ := pollDisplay_le (pollSwitch p2 s) (by rw [hsw]; exact hle)
    rw [e, player_scoring_eq, hsw]
    unfold pollEndTurn ScoreInv
    dsimp only
    split_ifs <;> simp [MSDelay] <;> omega
  · rw [pollDisplay_gt _ (by rw [hsw]; show 990 < s.score + _; omega), stop_game_eq, hsw]
    unfold pollEndTurn ScoreInv
    simp
    omega

theorem stop_scoring_ScoreInv (g : Nat) (s : State) (h : ScoreInv s) :
    ScoreInv (stop_scoring g s) := by
  obtain ⟨h1, h2, h3, h4, h5, h6⟩ := h
  have hp : addIntUnsigned 0 (toU16 s.score) = s.score :=
    addIntUnsigned_zero_toU16 _ (by omega) (by omega)
  unfold stop_scoring
  by_cases hg : g = 0
  · rw [if_pos hg]
    by_cases hr : s.restart = 1
    · rw [player_turn_first _ _ (Or.inl hr) (by omega)]
      simp [ScoreInv, writePort, MSDelay, hr, hp]
      omega
    · rcases Nat.mod_two_eq_zero_or_one s.turn with ht | ht
      · rw [player_turn_first _ _ (Or.inr ht) (by omega)]
        simp [ScoreInv, writePort, MSDelay, hr, hp]
        omega
      · rw [player_turn_second _ _ hr ht (by omega)]
        simp [ScoreInv, writePort, MSDelay, hp]
        omega
  · rw [if_neg hg]
    simp [ScoreInv, writePort, MSDelay]
    omega

theorem powerOn_ScoreInv : ScoreInv powerOn := by
  unfold ScoreInv; decide

theorem Reachable_ScoreInv (s : State) (h : Reachable s) : ScoreInv s := by
  induction h with
  | init => exact powerOn_ScoreInv
  | poll s p2 _ _ ih => exact pollPass_ScoreInv p2 s ih
  | release s g _ ih => exact stop_scoring_ScoreInv g s ih

/-- C2: in every state reachable from power-on by complete poll passes (any
sensor byte) and release-handler calls (any mode-pin level), `score` is a
multiple of 10 between 0 and 990, `ball_count` is at most 9 and both player
totals lie between 0 and 990. -/
theorem C2_reachable_score_bounds (s : State) (h : Reachable s) :
    s.score % 10 = 0 ∧ 0 ≤ s.score ∧ s.score ≤ 990 ∧ s.ball_count ≤ 9 ∧
    (0 ≤ s.Player1_Score ∧ s.Player1_Score ≤ 990) ∧
    (0 ≤ s.Player2_Score ∧ s.Player2_Score ≤ 990) := by
  obtain ⟨h1, h2, h3, h4, ⟨_, h5⟩, ⟨_, h6⟩⟩ := Reachable_ScoreInv s h
  exact ⟨h1, h2, h3, h4, h5, h6⟩

/-- Witness for C2: a 100-point pass, a two-player release, a 50-point pass. -/
theorem C2_reachable_score_bounds_witness :
    Reachable (pollPass 0x10 (stop_scoring 0 (pollPass 0x20 powerOn))) ∧
    (pollPass 0x10 (stop_scoring 0 (pollPass 0x20 powerOn))).score = 50 ∧
    (pollPass 0x10 (stop_scoring 0 (pollPass 0x20 powerOn))).Player1_Score = 100 ∧
    ((pollPass 0x10 (stop_scoring 0 (pollPass 0x20 powerOn))).score % 10 = 0 ∧
     0 ≤ (pollPass 0x10 (stop_scoring 0 (pollPass 0x20 powerOn))).score ∧
     (pollPass 0x10 (stop_scoring 0 (pollPass 0x20 powerOn))).score ≤ 990 ∧
     (pollPass 0x10 (stop_scoring 0 (pollPass 0x20 powerOn))).ball_count ≤ 9 ∧
     (0 ≤ (pollPass 0x10 (stop_scoring 0 (pollPass 0x20 powerOn))).Player1_Score ∧
      (pollPass 0x10 (stop_scoring 0 (pollPass 0x20 powerOn))).Player1_Score ≤ 990) ∧
     (0 ≤ (pollPass 0x10 (stop_scoring 0 (pollPass 0x20 powerOn))).Player2_Score ∧
      (pollPass 0x10 (stop_scoring 0 (pollPass 0x20 powerOn))).Player2_Score ≤ 990)) :=
  have hr : Reachable (pollPass 0x10 (stop_scoring 0 (pollPass 0x20 powerOn))) :=
    Reachable.poll _ _ (Reachable.release _ _ (Reachable.poll _ _ Reachable.init (by decide)))
      (by decide)
  ⟨hr, by decide, by decide, C2_reachable_score_bounds _ hr⟩

/-! ## Display digits -/

theorem toU16_eq_toNat (x : Int) (h0 : 0 ≤ x) (h1 : x ≤ 65535) : toU16 x = x.toNat := by
  unfold toU16
  rw [Int.emod_eq_of_lt h0 (by omega)]

theorem pollEndTurn_ports (s : State) :
    (pollEndTurn s).P0 = s.P0 ∧ (pollEndTurn s).P1 = s.P1 ∧ (pollEndTurn s).score = s.score := by
  unfold pollEndTurn
  split_ifs <;> simp [MSDelay]

/-- C3: when the score after adding the points lies in 0..990, the display step
of the pass is `player_scoring(tens, hundreds)` with tens = (score / 10) mod 10
and hundreds = score / 100, so on exit `P1 = Segment_LUT((score/10) % 10)` and
`P0 = Segment_LUT(score/100)`; the score itself is kept. -/
theorem C3_display_digits (p2 : Nat) (s : State)
    (h0 : 0 ≤ (pollSwitch p2 s).score) (h1 : (pollSwitch p2 s).score ≤ 990) :
    pollDisplay (pollSwitch p2 s) =
      player_scoring ((pollSwitch p2 s).score / 10 % 10).toNat
        ((pollSwitch p2 s).score / 100).toNat (pollSwitch p2 s) ∧
    (pollPass p2 s).P1 = Segment_LUT ((pollSwitch p2 s).score / 10 % 10).toNat ∧
    (pollPass p2 s).P0 = Segment_LUT ((pollSwitch p2 s).score / 100).toNat ∧
    (pollPass p2 s).score = (pollSwitch p2 s).score := by
  have e := pollDisplay_range (pollSwitch p2 s) h0 h1
  rw [toU16_eq_toNat _ (by omega) (by omega), toU16_eq_toNat _ (by omega) (by omega)] at e
  obtain ⟨q0, q1, q2⟩ := pollEndTurn_ports (pollDisplay (pollSwitch p2 s))
  refine ⟨e, ?_, ?_, ?_⟩
  · unfold pollPass; rw [q1, e, player_scoring_eq]
  · unfold pollPass; rw [q0, e, player_scoring_eq]
  · unfold pollPass; rw [q2, e, player_scoring_eq]

/-- Witness for C3: 120 points in play and the 50-point line read, digits 7 and 1. -/
theorem C3_display_digits_witness :
    (0 : Int) ≤ (pollSwitch 0x10 (withScore 120)).score ∧
    (pollSwitch 0x10 (withScore 120)).score ≤ 990 ∧
    (pollSwitch 0x10 (withScore 120)).score = 170 ∧
    (pollPass 0x10 (withScore 120)).P1 = Segment_LUT 7 ∧
    (pollPass 0x10 (withScore 120)).P0 = Segment_LUT 1 :=
  have h := C3_display_digits 0x10 (withScore 120) (by decide) (by decide)
  ⟨by decide, by decide, by decide, h.2.1, h.2.2.1⟩

/-! ## A scoring pass -/

theorem pollPass_display_fields (p2 : Nat) (s : State)
    (h1 : -32768 ≤ s.score) (h2 : s.score + specPoints (p2 &&& 0x3F) ≤ 990)
    (hb : s.ball_count ≠ 0) (hb2 : s.ball_count < 65536) :
    (pollPass p2 s).score = s.score + specPoints (p2 &&& 0x3F) ∧
    (pollPass p2 s).ball_count = s.ball_count - 1 ∧
    (pollPass p2 s).valid = s.valid ∧
    (pollPass p2 s).restart = s.restart ∧
    (pollPass p2 s).Player1_Score = s.Player1_Score ∧
    (pollPass p2 s).Player2_Score = s.Player2_Score ∧
    (pollPass p2 s).turn = s.turn := by
  have hsw := pollSwitch_in_range p2 s h1 (by omega)
  obtain ⟨lo, hi, e⟩ := pollDisplay_le (pollSwitch p2 s) (by rw [hsw]; exact h2)
  unfold pollPass
  rw [e, player_scoring_eq, hsw]
  unfold pollEndTurn
  dsimp only
  rw [if_neg hb]
  simp [MSDelay]
  omega

/-- C4: from an armed state with `ball_count = n > 0`, a pass whose reading is
worth `p` points with `score + p ≤ 990` ends with `score + p`, `ball_count = n - 1`
and `valid` still 0; from power-on the readings 0x01, 0x04, 0x02 give scores
10, 40, 60, the last shown as tens digit 6 and hundreds digit 0, and the passes
start with 9, 8, 7 balls and each takes exactly one. -/
theorem C4_pass_adds_points :
    (∀ (s : State) (p2 : Nat), s.WF → s.valid = 0 → 0 < s.ball_count →
      s.score + specPoints (p2 &&& 0x3F) ≤ 990 →
      (pollPass p2 s).score = s.score + specPoints (p2 &&& 0x3F) ∧
      (pollPass p2 s).ball_count = s.ball_count - 1 ∧
      (pollPass p2 s).valid = 0) ∧
    (powerOn.ball_count = 9 ∧ pollCond powerOn = true ∧
     (pollPass 0x01 powerOn).score = 10 ∧ (pollPass 0x01 powerOn).ball_count = 8 ∧
     pollCond (pollPass 0x01 powerOn) = true ∧
     (pollPass 0x04 (pollPass 0x01 powerOn)).score = 40 ∧
     (pollPass 0x04 (pollPass 0x01 powerOn)).ball_count = 7 ∧
     pollCond (pollPass 0x04 (pollPass 0x01 powerOn)) = true ∧
     (pollPass 0x02 (pollPass 0x04 (pollPass 0x01 powerOn))).score = 60 ∧
     (pollPass 0x02 (pollPass 0x04 (pollPass 0x01 powerOn))).ball_count = 6 ∧
     (pollPass 0x02 (pollPass 0x04 (pollPass 0x01 powerOn))).P1 = Segment_LUT 6 ∧
     (pollPass 0x02 (pollPass 0x04 (pollPass 0x01 powerOn))).P0 = Segment_LUT 0) := by
  refine ⟨fun s p2 hwf hv hb hle => ?_, by decide⟩
  obtain ⟨_, hbc, _, _, ⟨hs, _⟩, _⟩ := hwf
  obtain ⟨a, b, c, _⟩ := pollPass_display_fields p2 s hs hle (by omega) hbc
  exact ⟨a, b, by rw [c, hv]⟩

/-- Witness for C4: the 30-point line read with 120 points in play. -/
theorem C4_pass_adds_points_witness :
    (withScore 120).WF ∧ (withScore 120).valid = 0 ∧ 0 < (withScore 120).ball_count ∧
    (withScore 120).score + specPoints (0x04 &&& 0x3F) ≤ 990 ∧
    (pollPass 0x04 (withScore 120)).score = 120 + 30 ∧
    (pollPass 0x04 (withScore 120)).ball_count = 9 - 1 ∧
    (pollPass 0x04 (withScore 120)).valid = 0 :=
  ⟨by decide, by decide, by decide, by decide,
    C4_pass_adds_points.1 (withScore 120) 0x04 (by decide) (by decide) (by decide) (by decide)⟩

/-! ## Running out of balls -/

theorem pollLoop_zero_points (rs : List Nat) :
    ∀ s : State, (∀ r ∈ rs, specPoints (r &&& 0x3F) = 0) → s.valid = 0 → s.score = 0 →
      s.ball_count = rs.length → rs.length < 65536 →
      (pollLoop rs s).ball_count = 0 ∧ (pollLoop rs s).valid = 0 ∧
      (pollLoop rs s).score = 0 := by
  induction rs with
  | nil =>
    intro s _ hv hs hb _
    exact ⟨by simpa [pollLoop] using hb, by simpa [pollLoop] using hv,
      by simpa [pollLoop] using hs⟩
  | cons r rs ih =>
    intro s hz hv hs hb hlen
    simp only [List.length_cons] at hb hlen
    have hc : pollCond s = true := by simp [pollCond, hv, hb]
    have hr : specPoints (r &&& 0x3F) = 0 := hz r (List.mem_cons_self r rs)
    obtain ⟨a, b, c, _⟩ :=
      pollPass_display_fields r s (by omega) (by rw [hr]; omega) (by omega) (by omega)
    unfold pollLoop
    rw [if_pos hc]
    apply ih
    · exact fun x hx => hz x (List.mem_cons_of_mem r hx)
    · rw [c, hv]
    · rw [a, hs, hr]; rfl
    · rw [b, hb]; rfl
    · omega

/-- C5 as stated fails: nine zero-point passes from power-on leave `ball_count`
at 0 with `valid` still 0, not 1. -/
theorem C5_nine_passes_counterexample :
    ¬ (powerOn.score = 0 ∧ powerOn.ball_count = 9 ∧ powerOn.valid = 0 ∧
       (pollLoop [0, 0, 0, 0, 0, 0, 0, 0, 0] powerOn).ball_count = 0 ∧
       (pollLoop [0, 0, 0, 0, 0, 0, 0, 0, 0] powerOn).valid = 1) := by
  decide

/-- C5, amended: the power-on state after `Setup_Sys` has `score = 0`,
`ball_count = 9`, `valid = 0`; after nine passes that each score zero points
`ball_count` is 0 and the loop condition is false, so polling has stopped, while
`valid` is still 0. -/
theorem C5_nine_zero_passes :
    resetState.valid = 1 ∧
    powerOn.score = 0 ∧ powerOn.ball_count = 9 ∧ powerOn.valid = 0 ∧
    ∀ rs : List Nat, rs.length = 9 → (∀ r ∈ rs, specPoints (r &&& 0x3F) = 0) →
      (pollLoop rs powerOn).ball_count = 0 ∧ pollCond (pollLoop rs powerOn) = false ∧
      (pollLoop rs powerOn).valid = 0 ∧ (pollLoop rs powerOn).score = 0 := by
  refine ⟨by decide, by decide, by decide, by decide, fun rs hlen hz => ?_⟩
  obtain ⟨a, b, c⟩ := pollLoop_zero_points rs powerOn hz (by decide)
    (by decide) (by rw [hlen]; decide) (by omega)
  exact ⟨a, by simp [pollCond, a], b, c⟩

/-- Witness for C5: nine readings with no line active. -/
theorem C5_nine_zero_passes_witness :
    [0, 0, 0, 0, 0, 0, 0, 0, 0].length = 9 ∧ specPoints (0 &&& 0x3F) = 0 ∧
    (pollLoop [0, 0, 0, 0, 0, 0, 0, 0, 0] powerOn).ball_count = 0 ∧
    pollCond (pollLoop [0, 0, 0, 0, 0, 0, 0, 0, 0] powerOn) = false ∧
    (pollLoop [0, 0, 0, 0, 0, 0, 0, 0, 0] powerOn).valid = 0 ∧
    (pollLoop [0, 0, 0, 0, 0, 0, 0, 0, 0] powerOn).score = 0 :=
  ⟨by decide, by decide,
    C5_nine_zero_passes.2.2.2.2 [0, 0, 0, 0, 0, 0, 0, 0, 0] (by decide) (by decide)⟩

/-! ## Finalising a turn -/

theorem stop_scoring_tail (g : Nat) (s : State) :
    (stop_scoring g s).ball_count = 9 ∧ (stop_scoring g s).valid = 0 ∧
    (stop_scoring g s).P3 = 0x84 := by
  simp [stop_scoring, writePort, MSDelay]

theorem stop_scoring_two_player (s : State) :
    (stop_scoring 0 s).score = (player_turn (toU16 s.score) s).score ∧
    (stop_scoring 0 s).Player1_Score = (player_turn (toU16 s.score) s).Player1_Score ∧
    (stop_scoring 0 s).Player2_Score = (player_turn (toU16 s.score) s).Player2_Score ∧
    (stop_scoring 0 s).restart = (player_turn (toU16 s.score) s).restart ∧
    (stop_scoring 0 s).turn = (player_turn (toU16 s.score) s).turn := by
  simp [stop_scoring, writePort, MSDelay]

/-- C6: in two-player mode with no restart pending and an accumulated score
`s.score ≤ 990`, `stop_scoring` stores the score as the total of the finalizing
player (player 1 slot on an even turn count, player 2 slot on an odd one), keeps
the other total and loads it into `score`, sets `ball_count` to 9 and `valid`
to 0. -/
theorem C6_release_assigns_total (s : State) (hwf : s.WF) (hr : s.restart ≠ 1)
    (hs : s.score ≤ 990) :
    (s.turn % 2 = 0 →
      (stop_scoring 0 s).Player1_Score = s.score ∧
      (stop_scoring 0 s).Player2_Score = s.Player2_Score ∧
      (stop_scoring 0 s).score = s.Player2_Score) ∧
    (s.turn % 2 = 1 →
      (stop_scoring 0 s).Player2_Score = s.score ∧
      (stop_scoring 0 s).Player1_Score = s.Player1_Score ∧
      (stop_scoring 0 s).score = s.Player1_Score) ∧
    (stop_scoring 0 s).ball_count = 9 ∧ (stop_scoring 0 s).valid = 0 := by
  obtain ⟨_, _, _, _, ⟨h1, h2⟩, _⟩ := hwf
  have hp : addIntUnsigned 0 (toU16 s.score) = s.score := addIntUnsigned_zero_toU16 _ h1 h2
  obtain ⟨e0, e1, e2, _, _⟩ := stop_scoring_two_player s
  obtain ⟨t1, t2, _⟩ := stop_scoring_tail 0 s
  refine ⟨fun ht => ?_, fun ht => ?_, t1, t2⟩
  · rw [e0, e1, e2, player_turn_first _ _ (Or.inr ht) (by omega)]
    simp [hr, hp]
  · rw [e0, e1, e2, player_turn_second _ _ hr ht (by omega)]
    simp [hp]

/-- Witness for C6: 120 points accumulated by a 20-point and a 100-point pass. -/
theorem C6_release_assigns_total_witness :
    (pollPass 0x20 (pollPass 0x02 powerOn)).WF ∧
    (pollPass 0x20 (pollPass 0x02 powerOn)).restart ≠ 1 ∧
    (pollPass 0x20 (pollPass 0x02 powerOn)).score = 120 ∧
    (pollPass 0x20 (pollPass 0x02 powerOn)).turn % 2 = 0 ∧
    (stop_scoring 0 (pollPass 0x20 (pollPass 0x02 powerOn))).Player1_Score = 120 ∧
    (stop_scoring 0 (pollPass 0x20 (pollPass 0x02 powerOn))).Player2_Score = 0 ∧
    (stop_scoring 0 (pollPass 0x20 (pollPass 0x02 powerOn))).score = 0 ∧
    (stop_scoring 0 (pollPass 0x20 (pollPass 0x02 powerOn))).ball_count = 9 ∧
    (stop_scoring 0 (pollPass 0x20 (pollPass 0x02 powerOn))).valid = 0 :=
  have h := C6_release_assigns_total (pollPass 0x20 (pollPass 0x02 powerOn))
    (by decide) (by decide) (by decide)
  ⟨by decide, by decide, by decide, by decide, (h.1 (by decide)).1, (h.1 (by decide)).2.1,
    (h.1 (by decide)).2.2, h.2.2.1, h.2.2.2⟩

/-! ## Arming and disarming -/

theorem player_turn_valid (points : Nat) (s : State) (h : s.valid ≠ 0) :
    (player_turn points s).valid ≠ 0 := by
  by_cases hp : 990 < addIntUnsigned 0 points
  · rw [player_turn_over _ _ hp]; simp
  · by_cases hf : s.restart = 1 ∨ s.turn % 2 = 0
    · rw [player_turn_first _ _ hf (by omega)]; exact h
    · have hr : s.restart ≠ 1 := fun e => hf (Or.inl e)
      have ht : s.turn % 2 = 1 := by
        rcases Nat.mod_two_eq_zero_or_one s.turn with e | e
        · exact absurd (Or.inr e) hf
        · exact e
      rw [player_turn_second _ _ hr ht (by omega)]; exact h

theorem pollPass_valid (p2 : Nat) (s : State) (h : s.valid ≠ 0) :
    (pollPass p2 s).valid ≠ 0 := by
  have hd : (pollDisplay (pollSwitch p2 s)).valid ≠ 0 := by
    rw [pollSwitch_eq]
    unfold pollDisplay
    split_ifs <;> simp [player_scoring, writePort, stop_game, MSDelay, h]
  unfold pollPass pollEndTurn
  split_ifs <;> simp [MSDelay, hd]

/-- C7 as stated fails: the start-up code of `main` assigns `valid = Setup_Sys()`
and so takes `valid` from its initial 1 to 0 outside the release handler. -/
theorem C7_arming_counterexample :
    resetState.valid = 1 ∧ (mainInit resetState).valid = 0 ∧
    ¬ (resetState.valid ≠ 0 → (mainInit resetState).valid ≠ 0) := by
  decide

/-- C7, amended: whatever the state, the mode-pin level and the score,
`stop_scoring` returns with `ball_count = 9` and `valid = 0`; once the start-up
code has run, no other operation (a poll pass, `player_turn`, `stop_game`,
`player_scoring`, `MSDelay`) takes `valid` from a non-zero value to 0; the
start-up code itself arms once, taking `valid` from 1 to 0. -/
theorem C7_release_rearms :
    (∀ (g : Nat) (s : State),
      (stop_scoring g s).ball_count = 9 ∧ (stop_scoring g s).valid = 0) ∧
    (∀ s : State, s.valid ≠ 0 →
      (∀ p2 : Nat, (pollPass p2 s).valid ≠ 0) ∧
      (∀ points : Nat, (player_turn points s).valid ≠ 0) ∧
      (stop_game s).valid ≠ 0 ∧
      (∀ low hi : Nat, (player_scoring low hi s).valid ≠ 0) ∧
      (∀ itime : Nat, (MSDelay itime s).valid ≠ 0)) ∧
    (resetState.valid = 1 ∧ (mainInit resetState).valid = 0) := by
  refine ⟨fun g s => ⟨(stop_scoring_tail g s).1, (stop_scoring_tail g s).2.1⟩, fun s h => ?_,
    by decide⟩
  refine ⟨fun p2 => pollPass_valid p2 s h, fun pts => player_turn_valid pts s h, ?_, ?_, ?_⟩
  · rw [stop_game_eq]; simp
  · intro low hi; rw [player_scoring_eq]; exact h
  · intro itime; exact h

/-- Witness for C7: the disarmed state left by a game-over pass. -/
theorem C7_release_rearms_witness :
    (stop_game powerOn).valid ≠ 0 ∧
    (pollPass 0x01 (stop_game powerOn)).valid ≠ 0 ∧
    (player_turn 10 (stop_game powerOn)).valid ≠ 0 ∧
    (stop_scoring 0 (stop_game powerOn)).valid = 0 ∧
    (stop_scoring 1 (stop_game powerOn)).ball_count = 9 :=
  have h := C7_release_rearms.2.1 (stop_game powerOn) (by decide)
  ⟨by decide, h.1 0x01, h.2.1 10, (C7_release_rearms.1 0 (stop_game powerOn)).2,
    (C7_release_rearms.1 1 (stop_game powerOn)).1⟩

/-! ## Match over -/

/-- C8 as stated fails: with 1000 points finalized in two-player mode the
handler returns with `ball_count = 9`, not 0. -/
theorem C8_match_over_counterexample :
    (withScore 1000).WF ∧ (withScore 1000).score = 1000 ∧
    ¬ ((stop_scoring 0 (withScore 1000)).Player1_Score = 0 ∧
       (stop_scoring 0 (withScore 1000)).Player2_Score = 0 ∧
       (stop_scoring 0 (withScore 1000)).restart = 1 ∧
       (stop_scoring 0 (withScore 1000)).ball_count = 0) := by
  decide

/-- C8, amended: in two-player mode a finalizing total above 990 makes
`player_turn` run the match-over handler, which forces `ball_count` to 0; on
return from `stop_scoring` both totals are 0 and `restart = 1`, and the handler
has reset `ball_count` to 9 and `valid` to 0. -/
theorem C8_match_over (s : State) (hwf : s.WF) (hs : 990 < s.score) :
    (player_turn (toU16 s.score) s).ball_count = 0 ∧
    (player_turn (toU16 s.score) s).restart = 1 ∧
    (stop_scoring 0 s).Player1_Score = 0 ∧ (stop_scoring 0 s).Player2_Score = 0 ∧
    (stop_scoring 0 s).restart = 1 ∧ (stop_scoring 0 s).score = 0 ∧
    (stop_scoring 0 s).ball_count = 9 ∧ (stop_scoring 0 s).valid = 0 := by
  obtain ⟨_, _, _, _, ⟨h1, h2⟩, _⟩ := hwf
  have hp : addIntUnsigned 0 (toU16 s.score) = s.score := addIntUnsigned_zero_toU16 _ h1 h2
  obtain ⟨e0, e1, e2, e3, _⟩ := stop_scoring_two_player s
  obtain ⟨t1, t2, _⟩ := stop_scoring_tail 0 s
  rw [e0, e1, e2, e3, player_turn_over _ _ (by omega)]
  exact ⟨rfl, rfl, rfl, rfl, rfl, rfl, t1, t2⟩

/-- Witness for C8: a finalizing total of 1000. -/
theorem C8_match_over_witness :
    (withScore 1000).WF ∧ (990 : Int) < (withScore 1000).score ∧
    (player_turn (toU16 (withScore 1000).score) (withScore 1000)).ball_count = 0 ∧
    (stop_scoring 0 (withScore 1000)).Player1_Score = 0 ∧
    (stop_scoring 0 (withScore 1000)).Player2_Score = 0 ∧
    (stop_scoring 0 (withScore 1000)).restart = 1 ∧
    (stop_scoring 0 (withScore 1000)).ball_count = 9 :=
  have h := C8_match_over (withScore 1000) (by decide) (by decide)
  ⟨by decide, by decide, h.1, h.2.2.1, h.2.2.2.1, h.2.2.2.2.1, h.2.2.2.2.2.2.1⟩

/-- C9: when the score plus the mapped points exceeds 990 (and fits the 16-bit
`int`), the pass shows no score but runs `stop_game`: on exit `score = 0`,
`ball_count = 0`, `valid = 1`, `restart = 1`, `P0 = P1 = 0x40`, the only events
of the pass are the flash sequence of `stop_game`, and the loop condition is
false. -/
theorem C9_overflow_pass (p2 : Nat) (s : State) (hlo : -32768 ≤ s.score)
    (hhi : s.score + specPoints (p2 &&& 0x3F) ≤ 32767)
    (hover : 990 < s.score + specPoints (p2 &&& 0x3F)) :
    pollDisplay (pollSwitch p2 s) = stop_game (pollSwitch p2 s) ∧
    (pollPass p2 s).score = 0 ∧ (pollPass p2 s).ball_count = 0 ∧
    (pollPass p2 s).valid = 1 ∧ (pollPass p2 s).restart = 1 ∧
    (pollPass p2 s).P0 = 0x40 ∧ (pollPass p2 s).P1 = 0x40 ∧
    (pollPass p2 s).log = s.log ++
      [Event.write .P0 0x7F, Event.write .P1 0x7F, Event.delay 1500,
       Event.write .P0 0x40, Event.write .P1 0x40, Event.delay 1500,
       Event.write .P0 0x7F, Event.write .P1 0x7F, Event.delay 1500,
       Event.write .P1 0x40, Event.write .P0 0x40] ∧
    pollCond (pollPass p2 s) = false := by
  have hsw := pollSwitch_in_range p2 s hlo hhi
  have hd : pollDisplay (pollSwitch p2 s) = stop_game (pollSwitch p2 s) :=
    pollDisplay_gt _ (by rw [hsw]; exact hover)
  refine ⟨hd, ?_⟩
  unfold pollPass
  rw [hd, stop_game_eq, hsw]
  simp [pollEndTurn, pollCond]

/-- Witness for C9: 950 points in play and the 50-point line read. -/
theorem C9_overflow_pass_witness :
    (-32768 : Int) ≤ (withScore 950).score ∧ (withScore 950).valid = 0 ∧
    (990 : Int) < (withScore 950).score + specPoints (0x10 &&& 0x3F) ∧
    (pollPass 0x10 (withScore 950)).score = 0 ∧
    (pollPass 0x10 (withScore 950)).ball_count = 0 ∧
    (pollPass 0x10 (withScore 950)).valid = 1 ∧
    (pollPass 0x10 (withScore 950)).restart = 1 ∧
    pollCond (pollPass 0x10 (withScore 950)) = false :=
  have h := C9_overflow_pass 0x10 (withScore 950) (by decide) (by decide) (by decide)
  ⟨by decide, by decide, by decide, h.2.1, h.2.2.1, h.2.2.2.1, h.2.2.2.2.1,
    h.2.2.2.2.2.2.2.2⟩

/-- C10 as stated fails: `stop_game` leaves `valid = 1`, which disarms scoring. -/
theorem C10_stop_game_counterexample :
    powerOn.valid = 0 ∧
    ¬ ((stop_game powerOn).score = 0 ∧ (stop_game powerOn).valid = 0 ∧
       (stop_game powerOn).ball_count = 0 ∧ (stop_game powerOn).restart = 1) := by
  decide

/-- C10, amended: from every state `stop_game` clears `score` to 0, disarms
scoring (`valid = 1`), sets `ball_count` to 0 and sets `restart` to 1. -/
theorem C10_stop_game (s : State) :
    (stop_game s).score = 0 ∧ (stop_game s).valid = 1 ∧
    (stop_game s).ball_count = 0 ∧ (stop_game s).restart = 1 := by
  rw [stop_game_eq]
  exact ⟨rfl, rfl, rfl, rfl⟩

/-! ## Restart and turn parity -/

theorem addIntUnsigned_zero_small (points : Nat) (h : points ≤ 990) :
    addIntUnsigned 0 points = points := by
  unfold addIntUnsigned toS16 toU16; omega

/-- C11: with `restart = 1`, `player_turn` leaves the turn counter at 1 and the
player 2 total at 0 whatever the points; for `points ≤ 990` it returns with
player 1 total = points, player 2 total = 0, `restart = 0` and `score = 0`, so
the totals and the counter held at entry play no part. -/
theorem C11_restart_resets_match (points : Nat) (s : State) (hr : s.restart = 1) :
    (player_turn points s).turn = 1 ∧ (player_turn points s).Player2_Score = 0 ∧
    (points ≤ 990 →
      (player_turn points s).Player1_Score = points ∧
      (player_turn points s).restart = 0 ∧ (player_turn points s).score = 0) := by
  by_cases hp : 990 < addIntUnsigned 0 points
  · rw [player_turn_over _ _ hp]
    refine ⟨by simp [hr], rfl, fun h => ?_⟩
    rw [addIntUnsigned_zero_small _ h] at hp
    omega
  · rw [player_turn_first _ _ (Or.inl hr) (by omega)]
    refine ⟨by simp [hr], by simp [hr], fun h => ?_⟩
    simp [hr, addIntUnsigned_zero_small _ h]

/-- Witness for C11: a pending restart with totals 400 and 250, 50 points passed. -/
theorem C11_restart_resets_match_witness :
    restartState.restart = 1 ∧ restartState.Player1_Score = 400 ∧
    restartState.Player2_Score = 250 ∧ restartState.turn = 7 ∧
    (player_turn 50 restartState).turn = 1 ∧
    (player_turn 50 restartState).Player2_Score = 0 ∧
    (player_turn 50 restartState).Player1_Score = 50 ∧
    (player_turn 50 restartState).restart = 0 ∧
    (player_turn 50 restartState).score = 0 :=
  have h := C11_restart_resets_match 50 restartState (by decide)
  ⟨by decide, by decide, by decide, by decide, h.1, h.2.1, (h.2.2 (by decide)).1,
    (h.2.2 (by decide)).2.1, (h.2.2 (by decide)).2.2⟩

/-- C12 as stated fails: on an even turn count the 120 points go to the player 1
total, the player 2 total stays 0. -/
theorem C12_parity_counterexample :
    afterTwoBalls.restart = 0 ∧ afterTwoBalls.turn % 2 = 0 ∧ afterTwoBalls.score = 120 ∧
    ¬ ((player_turn 120 afterTwoBalls).Player2_Score = 120) := by
  decide

/-- C12, amended: with no restart pending and `points ≤ 990`, an even turn count
at entry stores the points in the player 1 total and an odd count in the player 2
total, the other total being kept; the counter becomes `(turn + 1) mod 2^16` on
every call with no restart pending, whatever the points. -/
theorem C12_parity_assignment (points : Nat) (s : State) (hr : s.restart ≠ 1) :
    (player_turn points s).turn = (s.turn + 1) % 65536 ∧
    (points ≤ 990 →
      (s.turn % 2 = 0 →
        (player_turn points s).Player1_Score = points ∧
        (player_turn points s).Player2_Score = s.Player2_Score) ∧
      (s.turn % 2 = 1 →
        (player_turn points s).Player2_Score = points ∧
        (player_turn points s).Player1_Score = s.Player1_Score)) := by
  constructor
  · by_cases hp : 990 < addIntUnsigned 0 points
    · rw [player_turn_over _ _ hp]; simp [hr]
    · rcases Nat.mod_two_eq_zero_or_one s.turn with ht | ht
      · rw [player_turn_first _ _ (Or.inr ht) (by omega)]; simp [hr]
      · rw [player_turn_second _ _ hr ht (by omega)]
  · intro h
    have hp := addIntUnsigned_zero_small _ h
    refine ⟨fun ht => ?_, fun ht => ?_⟩
    · rw [player_turn_first _ _ (Or.inr ht) (by omega)]; simp [hr, hp]
    · rw [player_turn_second _ _ hr ht (by omega)]; simp [hp]

/-- Witness for C12: 120 points finalized on turn count 0. -/
theorem C12_parity_assignment_witness :
    afterTwoBalls.restart ≠ 1 ∧ afterTwoBalls.turn % 2 = 0 ∧
    (player_turn 120 afterTwoBalls).turn = 1 ∧
    (player_turn 120 afterTwoBalls).Player1_Score = 120 ∧
    (player_turn 120 afterTwoBalls).Player2_Score = 0 :=
  have h := C12_parity_assignment 120 afterTwoBalls (by decide)
  ⟨by decide, by decide, h.1, ((h.2 (by decide)).1 (by decide)).1,
    ((h.2 (by decide)).1 (by decide)).2⟩

/-! ## The segment table -/

theorem Segment_LUT_default (d : Nat) (h : 9 < d) : Segment_LUT d = 0x40 := by
  unfold Segment_LUT
  split <;> omega

/-- C13: `Segment_LUT` is a total function; for each digit 0..9 its value is the
active-low pattern (A in bit 0 .. G in bit 6, 0 = lit) of the digit's glyph,
namely 0x40, 0x79, 0x24, 0x30, 0x19, 0x12, 0x02, 0x78, 0x00, 0x18, and for every
input above 9 it is 0x40, the pattern of 0. -/
theorem C13_segment_table :
    (∀ d : Nat, d ≤ 9 → Segment_LUT d = activeLow (standardGlyph d)) ∧
    (Segment_LUT 0 = 0x40 ∧ Segment_LUT 1 = 0x79 ∧ Segment_LUT 2 = 0x24 ∧
     Segment_LUT 3 = 0x30 ∧ Segment_LUT 4 = 0x19 ∧ Segment_LUT 5 = 0x12 ∧
     Segment_LUT 6 = 0x02 ∧ Segment_LUT 7 = 0x78 ∧ Segment_LUT 8 = 0x00 ∧
     Segment_LUT 9 = 0x18) ∧
    (∀ d : Nat, 9 < d → Segment_LUT d = 0x40 ∧ Segment_LUT d = Segment_LUT 0) := by
  refine ⟨fun d hd => ?_, by decide, fun d hd => ?_⟩
  · interval_cases d <;> decide
  · rw [Segment_LUT_default d hd]
    exact ⟨rfl, rfl⟩

/-- Witness for C13: the digit 9 and the out-of-range input 10. -/
theorem C13_segment_table_witness :
    Segment_LUT 9 = activeLow (standardGlyph 9) ∧ activeLow (standardGlyph 9) = 0x18 ∧
    Segment_LUT 10 = 0x40 ∧ Segment_LUT 10 = Segment_LUT 0 :=
  ⟨C13_segment_table.1 9 (by decide), by decide, C13_segment_table.2.2 10 (by decide)⟩

/-! ## What a poll pass leaves alone -/

theorem pollPass_match_state (p2 : Nat) (s : State) :
    (pollPass p2 s).Player1_Score = s.Player1_Score ∧
    (pollPass p2 s).Player2_Score = s.Player2_Score ∧
    (pollPass p2 s).turn = s.turn ∧
    ((pollSwitch p2 s).score ≤ 990 → (pollPass p2 s).restart = s.restart) ∧
    (990 < (pollSwitch p2 s).score → (pollPass p2 s).restart = 1) := by
  have key : ∀ t : State,
      (pollEndTurn (pollDisplay t)).Player1_Score = t.Player1_Score ∧
      (pollEndTurn (pollDisplay t)).Player2_Score = t.Player2_Score ∧
      (pollEndTurn (pollDisplay t)).turn = t.turn ∧
      (t.score ≤ 990 → (pollEndTurn (pollDisplay t)).restart = t.restart) ∧
      (990 < t.score → (pollEndTurn (pollDisplay t)).restart = 1) := by
    intro t
    by_cases h : t.score ≤ 990
    · obtain ⟨lo, hi, e⟩ := pollDisplay_le t h
      rw [e, player_scoring_eq]
      unfold pollEndTurn
      dsimp only
      split_ifs <;> simp [MSDelay] <;> omega
    · rw [pollDisplay_gt t (by omega), stop_game_eq]
      unfold pollEndTurn
      simp
      omega
  have hk := key (pollSwitch p2 s)
  have e1 : (pollSwitch p2 s).Player1_Score = s.Player1_Score := by rw [pollSwitch_eq]
  have e2 : (pollSwitch p2 s).Player2_Score = s.Player2_Score := by rw [pollSwitch_eq]
  have e3 : (pollSwitch p2 s).turn = s.turn := by rw [pollSwitch_eq]
  have e4 : (pollSwitch p2 s).restart = s.restart := by rw [pollSwitch_eq]
  rw [e1, e2, e3, e4] at hk
  exact hk

/-- C14 as stated fails: at the start of player 1's second turn with 900 points,
a 100-point pass takes `restart` from 0 to 1. -/
theorem C14_match_state_counterexample :
    pollCond secondTurnState = true ∧ secondTurnState.score = 900 ∧
    secondTurnState.restart = 0 ∧
    ¬ ((pollPass 0x20 secondTurnState).Player1_Score = secondTurnState.Player1_Score ∧
       (pollPass 0x20 secondTurnState).Player2_Score = secondTurnState.Player2_Score ∧
       (pollPass 0x20 secondTurnState).turn = secondTurnState.turn ∧
       (pollPass 0x20 secondTurnState).restart = secondTurnState.restart) := by
  decide

/-- C14, amended: a poll pass never changes the player 1 total, the player 2
total or the turn counter; it keeps `restart` whenever the score after adding the
points is at most 990, and sets `restart = 1` (through `stop_game`) when that
score exceeds 990. -/
theorem C14_pass_keeps_totals (p2 : Nat) (s : State) :
    (pollPass p2 s).Player1_Score = s.Player1_Score ∧
    (pollPass p2 s).Player2_Score = s.Player2_Score ∧
    (pollPass p2 s).turn = s.turn ∧
    ((pollSwitch p2 s).score ≤ 990 → (pollPass p2 s).restart = s.restart) ∧
    (990 < (pollSwitch p2 s).score → (pollPass p2 s).restart = 1) :=
  pollPass_match_state p2 s

/-- Witness for C14: a 50-point pass after two balls, and the 100-point pass that
ends the match. -/
theorem C14_pass_keeps_totals_witness :
    (pollSwitch 0x10 afterTwoBalls).score ≤ 990 ∧
    (pollPass 0x10 afterTwoBalls).restart = afterTwoBalls.restart ∧
    (990 : Int) < (pollSwitch 0x20 secondTurnState).score ∧
    (pollPass 0x20 secondTurnState).restart = 1 :=
  ⟨by decide, (C14_pass_keeps_totals 0x10 afterTwoBalls).2.2.2.1 (by decide), by decide,
    (C14_pass_keeps_totals 0x20 secondTurnState).2.2.2.2 (by decide)⟩

/-! ## The release pattern and the hundred-point line -/

/-- C15 as stated fails: with 120 points in play a pass reading 0x80 logs no
delay before its display writes, keeps the score at 120 and shows the digits 2
and 1. -/
theorem C15_release_pattern_counterexample :
    afterTwoBalls.score = 120 ∧ pollCond afterTwoBalls = true ∧
    ¬ ((pollSwitch 0x80 afterTwoBalls).log = afterTwoBalls.log ++ [Event.delay 2000] ∧
       (pollSwitch 0x80 afterTwoBalls).score = 0 ∧
       (pollPass 0x80 afterTwoBalls).score = 0 ∧
       (pollPass 0x80 afterTwoBalls).P1 = Segment_LUT 0 ∧
       (pollPass 0x80 afterTwoBalls).P0 = Segment_LUT 0) := by
  decide

/-- C15, amended: a reading of 0x80 is masked to 0, so the pass is the pass of a
reading with no line active: the switch runs its default branch only, with no
delay and without clearing the score, and for a score within the `int` range it
leaves the state as it was, so the pass renders the score held before it. -/
theorem C15_release_pattern_masked :
    (∀ s : State, pollSwitch 0x80 s = pollSwitch 0x00 s ∧ pollPass 0x80 s = pollPass 0x00 s) ∧
    (∀ s : State, pollSwitch 0x80 s = { s with score := toS16 (s.score + 0) }) ∧
    (∀ s : State, -32768 ≤ s.score → s.score ≤ 32767 → pollSwitch 0x80 s = s) := by
  refine ⟨fun s => ⟨rfl, rfl⟩, fun s => rfl, fun s h1 h2 => ?_⟩
  show { s with score := toS16 (s.score + 0) } = s
  rw [Int.add_zero, toS16_of_range _ h1 h2]

/-- Witness for C15: 120 points in play. -/
theorem C15_release_pattern_masked_witness :
    (-32768 : Int) ≤ afterTwoBalls.score ∧ afterTwoBalls.score ≤ 32767 ∧
    pollSwitch 0x80 afterTwoBalls = afterTwoBalls ∧
    (pollPass 0x80 afterTwoBalls).score = 120 :=
  ⟨by decide, by decide, C15_release_pattern_masked.2.2 afterTwoBalls (by decide) (by decide),
    by decide⟩

/-- C16 as stated fails: after `main` has set `Game_Mode_A` to 0 (bit 7 of the
`P0` latch), a pass whose masked reading is 0x20 does not leave the score as it
was; it adds 100 points. -/
theorem C16_mode_a_counterexample :
    getBit powerOn.P0 7 = false ∧ pollCond powerOn = true ∧ 0x20 &&& 0x3F = 0x20 ∧
    (pollPass 0x20 powerOn).score = 100 ∧
    ¬ ((pollSwitch 0x20 powerOn).score = powerOn.score ∧
       (pollPass 0x20 powerOn).score = powerOn.score) := by
  decide

/-- C16, amended: the program does not gate the 100-point line by Game Mode A;
a pass whose masked reading is 0x20 adds 100 points whatever the `P0` latch, and
so the `Game_Mode_A` bit, holds. -/
theorem C16_hundred_points_ungated (s : State) (p2 p0 : Nat) (hm : p2 &&& 0x3F = 0x20) :
    (pollSwitch p2 { s with P0 := p0 }).score = toS16 (s.score + 100) ∧
    (-32768 ≤ s.score → s.score + 100 ≤ 32767 →
      (pollSwitch p2 { s with P0 := p0 }).score = s.score + 100) := by
  have e : (pollSwitch p2 { s with P0 := p0 }).score = toS16 (s.score + 100) := by
    rw [pollSwitch_eq]
    show toS16 (s.score + specPoints (p2 &&& 0x3F)) = _
    rw [hm]
    rfl
  exact ⟨e, fun h1 h2 => by rw [e, toS16_of_range _ (by omega) h2]⟩

/-- Witness for C16: the 100-point line read at power-on with the `Game_Mode_A`
bit at 0 and at 1. -/
theorem C16_hundred_points_ungated_witness :
    0x20 &&& 0x3F = 0x20 ∧ getBit 0x00 7 = false ∧ getBit 0x80 7 = true ∧
    (pollSwitch 0x20 { powerOn with P0 := 0x00 }).score = 0 + 100 ∧
    (pollSwitch 0x20 { powerOn with P0 := 0x80 }).score = 0 + 100 :=
  ⟨by decide, by decide, by decide,
    (C16_hundred_points_ungated powerOn 0x20 0x00 (by decide)).2 (by decide) (by decide),
    (C16_hundred_points_ungated powerOn 0x20 0x80 (by decide)).2 (by decide) (by decide)⟩

/-! ## Single-player release -/

/-- C17: when `Game_Mode_B` does not read 0 (single-player mode), `stop_scoring`
changes nothing but `ball_count := 9`, `valid := 0` and `P3 := 0x84` (a write and
the 5000 ms delay being logged); `score`, both totals, the turn counter and
`restart` are as before. -/
theorem C17_single_player_release (g : Nat) (s : State) (hg : g ≠ 0) :
    stop_scoring g s =
      { s with ball_count := 9, valid := 0, P3 := 0x84,
               log := s.log ++ [Event.write .P3 0x84, Event.delay 5000] } ∧
    (stop_scoring g s).score = s.score ∧
    (stop_scoring g s).Player1_Score = s.Player1_Score ∧
    (stop_scoring g s).Player2_Score = s.Player2_Score ∧
    (stop_scoring g s).turn = s.turn ∧ (stop_scoring g s).restart = s.restart := by
  have e : stop_scoring g s =
      { s with ball_count := 9, valid := 0, P3 := 0x84,
               log := s.log ++ [Event.write .P3 0x84, Event.delay 5000] } := by
    simp [stop_scoring, writePort, MSDelay, hg]
  rw [e]
  exact ⟨rfl, rfl, rfl, rfl, rfl, rfl⟩

/-- Witness for C17: a release in single-player mode with 120 points in play. -/
theorem C17_single_player_release_witness :
    (1 : Nat) ≠ 0 ∧ (stop_scoring 1 afterTwoBalls).score = 120 ∧
    (stop_scoring 1 afterTwoBalls).Player1_Score = 0 ∧
    (stop_scoring 1 afterTwoBalls).turn = 0 ∧
    (stop_scoring 1 afterTwoBalls).ball_count = 9 ∧
    (stop_scoring 1 afterTwoBalls).valid = 0 ∧
    (stop_scoring 1 afterTwoBalls).P3 = 0x84 :=
  have h := C17_single_player_release 1 afterTwoBalls (by decide)
  ⟨by decide, h.2.1, h.2.2.1, h.2.2.2.2.1, by decide, by decide, by decide⟩

/-! ## Totals across turns -/

theorem sumPoints_cons (r : Nat) (rs : List Nat) :
    sumPoints (r :: rs) = specPoints (r &&& 0x3F) + sumPoints rs := by
  simp [sumPoints]

theorem sumPoints_nonneg (rs : List Nat) : 0 ≤ sumPoints rs := by
  induction rs with
  | nil => simp [sumPoints]
  | cons r rs ih =>
    rw [sumPoints_cons]
    have := (specPoints_bounds (r &&& 0x3F)).1
    omega

theorem pollLoop_scoring (rs : List Nat) :
    ∀ s : State, s.valid = 0 → rs.length ≤ s.ball_count → s.ball_count < 65536 →
      -32768 ≤ s.score → s.score + sumPoints rs ≤ 990 →
      (pollLoop rs s).score = s.score + sumPoints rs ∧
      (pollLoop rs s).Player1_Score = s.Player1_Score ∧
      (pollLoop rs s).Player2_Score = s.Player2_Score ∧
      (pollLoop rs s).turn = s.turn ∧ (pollLoop rs s).restart = s.restart := by
  induction rs with
  | nil =>
    intro s _ _ _ _ _
    simp [pollLoop, sumPoints]
  | cons r rs ih =>
    intro s hv hlen hb hlo hsum
    simp only [List.length_cons] at hlen
    rw [sumPoints_cons] at hsum
    have hnn := sumPoints_nonneg rs
    have hpt := (specPoints_bounds (r &&& 0x3F)).1
    have hc : pollCond s = true := by
      have : s.ball_count ≠ 0 := by omega
      simp [pollCond, hv, this]
    obtain ⟨a, b, c, d, e, f, g⟩ :=
      pollPass_display_fields r s hlo (by omega) (by omega) hb
    unfold pollLoop
    rw [if_pos hc, sumPoints_cons]
    obtain ⟨i1, i2, i3, i4, i5⟩ := ih (pollPass r s) (by rw [c, hv]) (by rw [b]; omega)
      (by rw [b]; omega) (by rw [a]; omega) (by rw [a]; omega)
    refine ⟨?_, ?_, ?_, ?_, ?_⟩
    · rw [i1, a]; omega
    · rw [i2, e]
    · rw [i3, f]
    · rw [i4, g]
    · rw [i5, d]

theorem release_first (s : State) (h1 : -32768 ≤ s.score) (h2 : s.score ≤ 990)
    (h : s.restart = 1 ∨ s.turn % 2 = 0) :
    (stop_scoring 0 s).Player1_Score = s.score ∧
    (stop_scoring 0 s).Player2_Score = (if s.restart = 1 then 0 else s.Player2_Score) ∧
    (stop_scoring 0 s).score = (stop_scoring 0 s).Player2_Score ∧
    (stop_scoring 0 s).turn % 2 = 1 ∧ (stop_scoring 0 s).restart ≠ 1 := by
  have hp : addIntUnsigned 0 (toU16 s.score) = s.score :=
    addIntUnsigned_zero_toU16 _ h1 (by omega)
  obtain ⟨e0, e1, e2, e3, e4⟩ := stop_scoring_two_player s
  rw [e0, e1, e2, e3, e4, player_turn_first _ _ h (by omega)]
  refine ⟨hp, rfl, rfl, ?_, ?_⟩
  · show (if s.restart = 1 then 1 else (s.turn + 1) % 65536) % 2 = 1
    split_ifs with hr
    · rfl
    · have := h.resolve_left hr
      omega
  · show (if s.restart = 1 then 0 else s.restart) ≠ 1
    split_ifs with hr
    · omega
    · exact hr

theorem release_second (s : State) (h1 : -32768 ≤ s.score) (h2 : s.score ≤ 990)
    (hr : s.restart ≠ 1) (ht : s.turn % 2 = 1) :
    (stop_scoring 0 s).Player2_Score = s.score ∧
    (stop_scoring 0 s).Player1_Score = s.Player1_Score ∧
    (stop_scoring 0 s).score = (stop_scoring 0 s).Player1_Score ∧
    (stop_scoring 0 s).turn % 2 = 0 ∧ (stop_scoring 0 s).restart ≠ 1 := by
  have hp : addIntUnsigned 0 (toU16 s.score) = s.score :=
    addIntUnsigned_zero_toU16 _ h1 (by omega)
  obtain ⟨e0, e1, e2, e3, e4⟩ := stop_scoring_two_player s
  rw [e0, e1, e2, e3, e4, player_turn_second _ _ hr ht (by omega)]
  refine ⟨hp, rfl, rfl, ?_, hr⟩
  show (s.turn + 1) % 65536 % 2 = 0
  omega

/-- C18: in two-player mode, after a release without overflow has handed the
turn to player X and loaded X's total T into `score`, a turn of at most nine
passes scoring `p1 .. pk` with `T + p1 + ... + pk ≤ 990`, followed by the next
release, leaves X's total at `T + p1 + ... + pk`, keeps the other total and loads
it into `score`; X is player 2 when the first release consumed a restart or saw
an even turn count, player 1 when it saw an odd count (65535 included). -/
theorem C18_totals_accumulate (s : State) (rs : List Nat) (hwf : s.WF)
    (h0 : s.score ≤ 990) (hk : rs.length ≤ 9)
    (hsum : (stop_scoring 0 s).score + sumPoints rs ≤ 990) :
    ((s.restart = 1 ∨ s.turn % 2 = 0) →
      (stop_scoring 0 s).score = (stop_scoring 0 s).Player2_Score ∧
      (stop_scoring 0 (pollLoop rs (stop_scoring 0 s))).Player2_Score =
        (stop_scoring 0 s).Player2_Score + sumPoints rs ∧
      (stop_scoring 0 (pollLoop rs (stop_scoring 0 s))).Player1_Score =
        (stop_scoring 0 s).Player1_Score ∧
      (stop_scoring 0 (pollLoop rs (stop_scoring 0 s))).score =
        (stop_scoring 0 s).Player1_Score) ∧
    ((s.restart ≠ 1 ∧ s.turn % 2 = 1) →
      (stop_scoring 0 s).score = (stop_scoring 0 s).Player1_Score ∧
      (stop_scoring 0 (pollLoop rs (stop_scoring 0 s))).Player1_Score =
        (stop_scoring 0 s).Player1_Score + sumPoints rs ∧
      (stop_scoring 0 (pollLoop rs (stop_scoring 0 s))).Player2_Score =
        (stop_scoring 0 s).Player2_Score ∧
      (stop_scoring 0 (pollLoop rs (stop_scoring 0 s))).score =
        (stop_scoring 0 s).Player2_Score) := by
  obtain ⟨_, _, _, _, ⟨hs1, _⟩, ⟨hp1, _⟩, ⟨hp2, _⟩, _⟩ := hwf
  obtain ⟨t1, t2, _⟩ := stop_scoring_tail 0 s
  have hnn := sumPoints_nonneg rs
  constructor
  · intro h
    obtain ⟨a1, a2, a3, a4, a5⟩ := release_first s hs1 h0 h
    have hT : -32768 ≤ (stop_scoring 0 s).score := by
      rw [a3, a2]; split_ifs <;> omega
    obtain ⟨l1, l2, l3, l4, l5⟩ := pollLoop_scoring rs (stop_scoring 0 s) t2
      (by rw [t1]; exact hk) (by rw [t1]; omega) hT hsum
    obtain ⟨b1, b2, b3, _, _⟩ := release_second (pollLoop rs (stop_scoring 0 s))
      (by rw [l1]; omega) (by rw [l1]; exact hsum) (by rw [l5]; exact a5) (by rw [l4]; exact a4)
    refine ⟨a3, ?_, ?_, ?_⟩
    · rw [b1, l1, a3]
    · rw [b2, l2]
    · rw [b3, b2, l2]
  · intro h
    obtain ⟨a1, a2, a3, a4, a5⟩ := release_second s hs1 h0 h.1 h.2
    have hT : -32768 ≤ (stop_scoring 0 s).score := by
      rw [a3, a2]; exact hp1
    obtain ⟨l1, l2, l3, l4, l5⟩ := pollLoop_scoring rs (stop_scoring 0 s) t2
      (by rw [t1]; exact hk) (by rw [t1]; omega) hT hsum
    obtain ⟨b1, b2, b3, _, _⟩ := release_first (pollLoop rs (stop_scoring 0 s))
      (by rw [l1]; omega) (by rw [l1]; exact hsum) (Or.inr (by rw [l4]; exact a4))
    have hr : (pollLoop rs (stop_scoring 0 s)).restart ≠ 1 := by rw [l5]; exact a5
    rw [if_neg hr] at b2
    refine ⟨a3, ?_, ?_, ?_⟩
    · rw [b1, l1, a3]
    · rw [b2, l3]
    · rw [b3, b2, l3]

/-- Witness for C18: the turn counter wraps from 65535 to 0 at the first release;
player 1 resumes at 200 and scores 10 and 100. -/
theorem C18_totals_accumulate_witness :
    lastTurnState.WF ∧ lastTurnState.score ≤ 990 ∧
    lastTurnState.restart ≠ 1 ∧ lastTurnState.turn = 65535 ∧
    (stop_scoring 0 lastTurnState).turn = 0 ∧
    (stop_scoring 0 lastTurnState).score = 200 ∧ sumPoints [0x01, 0x20] = 110 ∧
    (stop_scoring 0 (pollLoop [0x01, 0x20] (stop_scoring 0 lastTurnState))).Player1_Score =
      200 + 110 ∧
    (stop_scoring 0 (pollLoop [0x01, 0x20] (stop_scoring 0 lastTurnState))).Player2_Score = 30 ∧
    (stop_scoring 0 (pollLoop [0x01, 0x20] (stop_scoring 0 lastTurnState))).score = 30 :=
  have h := (C18_totals_accumulate lastTurnState [0x01, 0x20] (by decide) (by decide)
    (by decide) (by decide)).2 ⟨by decide, by decide⟩
  ⟨by decide, by decide, by decide, by decide, by decide, by decide, by decide,
    h.2.1, h.2.2.1, h.2.2.2⟩

/-! ## Restart against a fresh match -/

/-- C19: with `restart = 1`, `player_turn` returns the very state (totals, turn
counter, `restart`, `score`, port latches and the logged writes and delays) that
it returns when called with the same points on the same state with the match
variables at their power-on values: both totals 0, turn 0, `restart` 0. -/
theorem C19_restart_as_fresh (points : Nat) (s : State) (hr : s.restart = 1) :
    player_turn points s =
      player_turn points
        { s with Player1_Score := 0, Player2_Score := 0, turn := 0, restart := 0 } := by
  by_cases hp : 990 < addIntUnsigned 0 points
  · rw [player_turn_over points s hp, player_turn_over points _ hp]
    simp [hr]
  · rw [player_turn_first points s (Or.inl hr) (by omega),
      player_turn_first points
        { s with Player1_Score := 0, Player2_Score := 0, turn := 0, restart := 0 }
        (Or.inr rfl) (by omega)]
    simp [hr]

/-- Witness for C19: a pending restart with totals 400 and 250 against the fresh
match, 50 points passed. -/
theorem C19_restart_as_fresh_witness :
    restartState.restart = 1 ∧ restartState.Player1_Score = 400 ∧
    powerOn.Player1_Score = 0 ∧ powerOn.Player2_Score = 0 ∧ powerOn.turn = 0 ∧
    powerOn.restart = 0 ∧
    player_turn 50 restartState =
      player_turn 50
        { restartState with Player1_Score := 0, Player2_Score := 0, turn := 0, restart := 0 } ∧
    (player_turn 50 restartState).Player1_Score = 50 :=
  ⟨by decide, by decide, by decide, by decide, by decide, by decide,
    C19_restart_as_fresh 50 restartState (by decide), by decide⟩

/-! ## The mode bits -/

end SkeeBall
